import Mathlib

/-
Verification of the conversation session engine of the mcp-healthy repository.

The development shallowly embeds the parts of the code that the claims are
about: the Redis last-message cache (src/utils/redis_service.py), the
session-start context resolution, frame validation, attachment resolution,
per-turn persistence and title generation (src/main.py websocket_endpoint),
and the tool-orchestration loop (src/streamablehttp_client.py process_query).

External effects are made explicit: the database is a list of rows, the Redis
cache for one conversation is an optional entry, provider and tool behaviour
are supplied as oracle functions, and emitted websocket frames are collected
in lists.  Python truthiness tests on strings are modelled as emptiness
tests, matching the source.
-/

set_option linter.unusedVariables false

namespace McpHealthy

/-- A minimal JSON value type for the frames the endpoint sends. -/
inductive JVal where
  | str (s : String)
  | bool (b : Bool)
  | obj (fields : List (String × JVal))

/-- Field lookup in a JSON object; none on non-objects and absent keys. -/
def jget (j : JVal) (k : String) : Option JVal :=
  match j with
  | .obj fs => List.lookup k fs
  | _ => none

/-- A row of the ai_conversation_messages table, class Message of
src/models/conversation.py.  The uuid is optional as in the source (filled by
the before-insert listener); the datetime column created_at is modelled as a
Nat tick supplied by the database, rendered with toString where the source
calls isoformat (an injective rendering, adequate for every claim here). -/
structure Message where
  uuid : Option String
  conversation_id : String
  role : String
  content : String
  created_at : Nat
  deriving DecidableEq, Repr

/-- Python str of an optional uuid: None prints as the string None. -/
def uuid_str (u : Option String) : String :=
  match u with
  | some s => s
  | none => "None"

/-- Message.dict of src/models/conversation.py: the bare view
with keys uuid, role, content, created_at and no wrapper around it. -/
def msg_dict (m : Message) : JVal :=
  JVal.obj [("uuid", JVal.str (uuid_str m.uuid)), ("role", JVal.str m.role),
            ("content", JVal.str m.content),
            ("created_at", JVal.str (toString m.created_at))]

/-- A row of the documents table, class Documents of src/models/documents.py. -/
structure Documents where
  id : Nat
  message_uuid : Option String
  name : String
  path : String
  mime_type : String
  size : Nat
  created_at : String
  deriving DecidableEq, Repr

/-- Modelled from the spec: the Conversation model in
src/models/conversation.py has no title column, yet main.py lines 231-237
read and write conversation.title; spec section 3 describes title as nullable
with an untitled sentinel.  The row is modelled with the two fields the title
step of main.py touches. -/
structure Conversation where
  title : Option String
  last_message : Option String
  deriving DecidableEq, Repr

/-- The default TTL of RedisService in src/utils/redis_service.py. -/
def default_ttl : Nat := 2592000

/-- What the cache holds for one conversation id: the stored content and the
TTL it was stored with. -/
structure CacheEntry where
  content : String
  ttl : Nat
  deriving DecidableEq, Repr

/-- RedisService.store_last_message for one conversation: when the service is
connected the entry is overwritten and true returned; the TTL falls back to
the default under Python truthiness (an absent or zero ttl argument).  When
the service is down (or the write raises) the failure is caught inside the
method, which returns false without touching the cache. -/
def store_last_message (redis_up : Bool) (cache : Option CacheEntry)
    (message_content : String) (ttl : Option Nat) : Option CacheEntry × Bool :=
  if redis_up then
    (some ⟨message_content,
      match ttl with
      | some t => if t = 0 then default_ttl else t
      | none => default_ttl⟩, true)
  else (cache, false)

/-- RedisService.get_last_message for one conversation: none when the service
is down or the key is absent, otherwise the stored content. -/
def get_last_message (redis_up : Bool) (cache : Option CacheEntry) : Option String :=
  if redis_up then cache.map CacheEntry.content else none

/-- The store query of main.py lines 136-142: the newest assistant message of
the conversation (ORDER BY created_at DESC, first row; on equal timestamps
the first-inserted row, matching a stable descending sort). -/
def newestAssistant (store : List Message) (conversation_id : String) : Option Message :=
  (store.filter (fun m => m.conversation_id == conversation_id && m.role == "assistant")).foldl
    (fun acc m =>
      match acc with
      | none => some m
      | some b => some (if b.created_at < m.created_at then m else b)) none

/-- The result of session-start context resolution: the text handed to the
orchestration loop, the cache state afterwards, and how many store queries
were issued. -/
structure ResolveResult where
  last_message_text : Option String
  cache : Option CacheEntry
  store_reads : Nat
  deriving DecidableEq, Repr

/-- The database fallback half of context resolution, main.py lines 134-149:
one store query; on a hit the cache is refilled via store_last_message with
no explicit TTL. -/
def resolveFromStore (redis_up : Bool) (cache : Option CacheEntry) (store : List Message)
    (conversation_id : String) : ResolveResult :=
  match newestAssistant store conversation_id with
  | some m => ⟨some m.content, (store_last_message redis_up cache m.content none).1, 1⟩
  | none => ⟨none, cache, 1⟩

/-- Context resolution at session start, main.py lines 127-149: Redis first,
database fallback guarded by Python truthiness of the cached text (an empty
cached string falls through to the database exactly as a miss does). -/
def resolveContext (redis_up : Bool) (cache : Option CacheEntry) (store : List Message)
    (conversation_id : String) : ResolveResult :=
  match get_last_message redis_up cache with
  | some s =>
    if s = "" then resolveFromStore redis_up cache store conversation_id
    else ⟨some s, cache, 0⟩
  | none => resolveFromStore redis_up cache store conversation_id

/-- The membership test of main.py line 232:
conversation.title in (None, empty, New Conversation). -/
def isSentinelTitle (t : Option String) : Bool :=
  match t with
  | none => true
  | some s => s == "" || s == "New Conversation"

/-- An outbound websocket frame: ConnectionManager.send_personal_message
serialises dict arguments as JSON and sends string arguments as given. -/
inductive OutFrame where
  | text (s : String)
  | json (j : JVal)

/-- The typing indicator frame of main.py line 332. -/
def typing_frame (status : Bool) : OutFrame :=
  OutFrame.json (JVal.obj [("type", JVal.str "typing"), ("status", JVal.bool status)])

/-- The turn-level error frame of main.py line 245. -/
def error_frame (e : String) : OutFrame :=
  OutFrame.json (JVal.obj [("type", JVal.str "error"), ("message", JVal.str e)])

/-- The frame of main.py line 238, sent after a title update. -/
def update_conversation_frame : OutFrame :=
  OutFrame.json (JVal.obj [("type", JVal.str "update-conversation")])

/-- Result of the title block of main.py lines 230-239: the conversation row
afterwards, whether a title provider call was issued, and the frames sent. -/
structure TitleOutcome where
  conversation : Option Conversation
  title_call : Bool
  frames : List OutFrame

/-- The title block of main.py lines 230-239 for one turn.  conv is the row
session.get returned (none when absent), last_message_text the current value
of that variable (it may stem from the session-start resolution rather than
from this turn), and title_result what process_conversation_title_query
returned (none on failure or a non-text response).  Python truthiness makes
an empty produced title fall back to the sentinel New Conversation. -/
def titleStep (conv : Option Conversation) (last_message_text : Option String)
    (title_result : Option String) : TitleOutcome :=
  match last_message_text, conv with
  | some s, some c =>
    if s ≠ "" ∧ isSentinelTitle c.title = true then
      let newTitle :=
        match title_result with
        | some t => if t = "" then "New Conversation" else t
        | none => "New Conversation"
      ⟨some { c with title := some newTitle, last_message := some s }, true,
        [update_conversation_frame]⟩
    else ⟨conv, false, []⟩
  | _, _ => ⟨conv, false, []⟩

/-- Several turns of the title block on one conversation: each list element
supplies the last-message text at the end of that turn and the title the
provider would return; the second component counts issued title calls. -/
def titleRun (conv : Option Conversation)
    (turns : List (Option String × Option String)) : Option Conversation × Nat :=
  turns.foldl
    (fun st t =>
      let o := titleStep st.1 t.1 t.2
      (o.conversation, st.2 + (if o.title_call then 1 else 0)))
    (conv, 0)

/-- One content segment of a provider response
(src/streamablehttp_client.py lines 102-135): a text block, or a tool-use
block with name, structured arguments (kept abstract as a string) and the
optional accompanying text attribute the code probes with hasattr. -/
inductive Segment where
  | text (s : String)
  | tool_use (name : String) (args : String) (acc_text : Option String)
  deriving DecidableEq, Repr

/-- Whether a segment is a tool-use block. -/
def Segment.isToolUse : Segment → Bool
  | .tool_use _ _ _ => true
  | .text _ => false

/-- A content block of one chat message handed to the provider. -/
inductive ContentBlock where
  | text (s : String)
  | image (url : Option String)
  deriving DecidableEq, Repr

/-- The content of one chat message accumulated by process_query. -/
inductive ChatContent where
  | text (s : String)
  | blocks (bs : List ContentBlock)
  | tool_result (r : String)
  deriving DecidableEq, Repr

/-- One entry of the messages list process_query accumulates. -/
structure ChatMsg where
  role : String
  content : ChatContent
  deriving DecidableEq, Repr

/-- One provider call in the trace: whether the tools parameter (the
catalog, possibly empty after a failed discovery) was passed. -/
structure ProviderCall where
  with_tools : Bool
  deriving DecidableEq, Repr

/-- The environment of process_query: tool execution (an error value models
a raised exception) and, for the k-th follow-up call, the content of the
provider response it returns. -/
structure QueryEnv where
  tool_exec : String → String → Except String String
  follow_up : Nat → List Segment

/-- The role-priming first user turn of process_query (verbatim from
src/streamablehttp_client.py lines 77-79). -/
def primingText : String :=
  "You are a health and nutrition expert. Use the tools of healthy-server to assist users with their dietary needs and health-related inquiries. Provide accurate and helpful information based on the user's questions and the data available through the tools."

/-- Message framing of process_query lines 71-85: a continuation assistant
turn when a non-empty prior context exists (Python truthiness), the priming
turn otherwise, then the user turn with the text block and one image block
per document url. -/
def initialMessages (user_message : String) (last_message : Option String)
    (document_urls : List (Option String)) : List ChatMsg :=
  let first :=
    match last_message with
    | some s => if s = "" then ChatMsg.mk "user" (ChatContent.text primingText)
                else ChatMsg.mk "assistant" (ChatContent.text s)
    | none => ChatMsg.mk "user" (ChatContent.text primingText)
  [first, ChatMsg.mk "user" (ChatContent.blocks
    (ContentBlock.text user_message :: document_urls.map ContentBlock.image))]

/-- The loop state of process_query: the accumulated messages, the pending
follow-up text (the local variable message), the texts yielded so far, the
trace of provider calls, the successfully executed tool invocations, and the
number of follow-up calls issued. -/
structure QueryState where
  msgs : List ChatMsg
  pending : Option String
  yields : List String
  calls : List ProviderCall
  tool_runs : List (String × String)
  k : Nat
  deriving DecidableEq, Repr

/-- One iteration of the for-loop of process_query lines 102-135.  A text
segment is yielded immediately.  A tool-use segment is executed; if the
invocation raises, the exception is logged and the iteration ends with the
state unchanged; on success the accompanying text (when present and
non-empty) and the tool result are appended to the messages, one follow-up
provider call is made without the tools parameter, and if the leading
segment of its response is text it overwrites the pending follow-up text. -/
def queryStep (env : QueryEnv) (st : QueryState) : Segment → QueryState
  | .text s => { st with yields := st.yields ++ [s] }
  | .tool_use n a acc =>
    match env.tool_exec n a with
    | .error _ => st
    | .ok r =>
      { msgs := st.msgs
          ++ (match acc with
              | some t => if t = "" then [] else [ChatMsg.mk "assistant" (ChatContent.text t)]
              | none => [])
          ++ [ChatMsg.mk "user" (ChatContent.tool_result r)],
        pending :=
          match env.follow_up st.k with
          | .text s :: _ => some s
          | _ => st.pending,
        yields := st.yields,
        calls := st.calls ++ [ProviderCall.mk false],
        tool_runs := st.tool_runs ++ [(n, a)],
        k := st.k + 1 }

/-- process_query of src/streamablehttp_client.py lines 65-140, with the
content of the initial provider response supplied as the response argument.
The initial call passes the tool catalog; after the segment list is
exhausted the pending follow-up text is yielded when non-empty (Python
truthiness of the message variable). -/
def process_query (env : QueryEnv) (user_message : String) (last_message : Option String)
    (document_urls : List (Option String)) (response : List Segment) : QueryState :=
  let st0 : QueryState :=
    ⟨initialMessages user_message last_message document_urls, none, [],
      [ProviderCall.mk true], [], 0⟩
  let st := response.foldl (queryStep env) st0
  match st.pending with
  | some m => if m = "" then st else { st with yields := st.yields ++ [m] }
  | none => st

/-- An inbound websocket frame as the endpoint sees it: a payload that is
not valid JSON, or a parsed object with its optional message field (absent
and JSON-null both give none) and its attachment id list. -/
inductive InFrame where
  | invalid_json
  | valid (message : Option String) (attachments : List Nat)
  deriving DecidableEq, Repr

/-- Outcome of frame validation. -/
inductive Validated where
  | rejected (err : String)
  | accepted (content : String) (attachments : List Nat)
  deriving DecidableEq, Repr

/-- Python str.strip: drop whitespace from both ends. -/
def py_strip (s : String) : String :=
  String.mk (((s.data.dropWhile Char.isWhitespace).reverse.dropWhile Char.isWhitespace).reverse)

/-- Frame validation of main.py lines 155-170: a JSON decode error is
answered with the format error; a missing, empty or too-short message (at
most 2 characters after strip) with the length error; both via continue. -/
def validate_frame : InFrame → Validated
  | .invalid_json => .rejected "Invalid message format"
  | .valid msg atts =>
    let content := msg.getD ""
    if content = "" ∨ (py_strip content).length ≤ 2 then .rejected "Message content is required"
    else .accepted content atts

/-- get_document_by_id of main.py lines 334-341: a primary-key lookup,
none when the row is absent (or the lookup raises). -/
def get_document_by_id (docs : List Documents) (attachment_id : Nat) : Option Documents :=
  docs.find? (fun d => d.id == attachment_id)

/-- get_document_download_url of main.py lines 343-354: none when the
API_BASE_URL environment variable is unset or empty (Python truthiness),
otherwise the parameterised download URL. -/
def get_document_download_url (api_base : Option String) (document : Documents)
    (token : String) : Option String :=
  match api_base with
  | none => none
  | some b =>
    if b = "" then none
    else some (b ++ "/api/documents/" ++ toString document.id ++ "/download?access_token=" ++ token)

/-- Update the row with the given primary key (document ids are unique in
the table), setting its message_uuid. -/
def set_message_uuid : List Documents → Nat → String → List Documents
  | [], _, _ => []
  | d :: rest, i, u =>
    if d.id == i then { d with message_uuid := some u } :: rest
    else d :: set_message_uuid rest i u

/-- Attachment resolution of main.py lines 190-203: look every id up in the
table first, silently drop the misses, then for each resolved document (in
input order) append its download URL, whatever it is, and bind the document
to the just-created user message. -/
def resolve_attachments (docs : List Documents) (atts : List Nat) (api_base : Option String)
    (token : String) (msg_uuid : String) : List (Option String) × List Documents :=
  let found := (atts.map (fun i => get_document_by_id docs i)).filterMap id
  found.foldl
    (fun acc d =>
      (acc.1 ++ [get_document_download_url api_base d token],
       set_message_uuid acc.2 d.id msg_uuid))
    ([], docs)

/-- The session state a turn reads and writes: the message table, the
documents table, the cache entry of this conversation, the conversation row,
the running last_message_text variable, and whether the receive loop is
still running. -/
structure SessionState where
  store : List Message
  docs : List Documents
  cache : Option CacheEntry
  conversation : Option Conversation
  last_message_text : Option String
  active : Bool
  deriving DecidableEq, Repr

/-- One entry of the side-effect trace of a turn. -/
inductive TurnOp where
  | persist (role : String) (content : String)
  | cache_store (content : String) (ok : Bool)
  | send
  deriving DecidableEq, Repr

/-- The oracle environment of one turn: the query environment and initial
provider response, the title the title call would produce (none models a
failure), whether Redis is reachable, the API base url, the caller token,
and the uuid and created_at values the database assigns to the k-th row
inserted this turn. -/
structure TurnEnv where
  query : QueryEnv
  response : List Segment
  title_result : Option String
  redis_up : Bool
  api_base : Option String
  token : String
  uuid_gen : Nat → String
  now_gen : Nat → Nat

/-- State of the assistant-response loop of main.py lines 207-226. -/
structure AsstState where
  store : List Message
  cache : Option CacheEntry
  frames : List OutFrame
  ops : List TurnOp
  last_message_text : Option String
  idx : Nat

/-- One iteration of the assistant-response loop of main.py lines 207-226:
a none response is skipped; otherwise the assistant message is persisted,
last_message_text updated, the cache store attempted (a false return is only
logged), and the bare message dict sent to the client. -/
def assistant_step (env : TurnEnv) (cid : String) (st : AsstState) :
    Option String → AsstState
  | none => st
  | some r =>
    let m : Message := ⟨some (env.uuid_gen st.idx), cid, "assistant", r, env.now_gen st.idx⟩
    { store := st.store ++ [m],
      cache := (store_last_message env.redis_up st.cache r none).1,
      frames := st.frames ++ [OutFrame.json (msg_dict m)],
      ops := st.ops ++ [TurnOp.persist "assistant" r,
        TurnOp.cache_store r (store_last_message env.redis_up st.cache r none).2,
        TurnOp.send],
      last_message_text := some r,
      idx := st.idx + 1 }

/-- Everything a completed turn body produced. -/
structure TurnData where
  state : SessionState
  frames : List OutFrame
  ops : List TurnOp
  urls : List (Option String)
  title_call : Bool

/-- The body of the try block of main.py lines 176-241 when nothing raises:
persist the user message and echo its dict, resolve the attachments and bind
them, run the orchestration loop and the assistant-response loop over its
yields, then the title block. -/
def turn_body (env : TurnEnv) (cid content : String) (atts : List Nat)
    (s : SessionState) : TurnData :=
  let userMsg : Message := ⟨some (env.uuid_gen 0), cid, "user", content, env.now_gen 0⟩
  let ra := resolve_attachments s.docs atts env.api_base env.token (env.uuid_gen 0)
  let q := process_query env.query content s.last_message_text ra.1 env.response
  let a0 : AsstState :=
    ⟨s.store ++ [userMsg], s.cache, [OutFrame.json (msg_dict userMsg)],
      [TurnOp.persist "user" content, TurnOp.send], s.last_message_text, 1⟩
  let a := (q.yields.map some).foldl (assistant_step env cid) a0
  let t := titleStep s.conversation a.last_message_text env.title_result
  { state := ⟨a.store, ra.2, a.cache, t.conversation, a.last_message_text, true⟩,
    frames := a.frames ++ t.frames,
    ops := a.ops ++ t.frames.map (fun _ => TurnOp.send),
    urls := ra.1,
    title_call := t.title_call }

/-- What a turn body execution amounts to: the session state it left behind,
the frames it sent before finishing or raising, and the message of the
exception it raised, if any (partial effects of a raising body stay, as the
database commits of main.py are per message). -/
structure BodyResult where
  state : SessionState
  frames : List OutFrame
  error : Option String

/-- The turn boundary of main.py lines 175-247: the typing-started frame is
sent before the try block; on success the typing-stopped frame ends the try
block; on any exception the except block sends the error frame and then the
typing-stopped frame; both paths continue the receive loop. -/
def run_turn (b : BodyResult) : SessionState × List OutFrame :=
  match b.error with
  | none =>
    ({ b.state with active := true },
      typing_frame true :: (b.frames ++ [typing_frame false]))
  | some e =>
    ({ b.state with active := true },
      typing_frame true :: (b.frames ++ [error_frame e, typing_frame false]))

/-- Processing of one inbound frame by the receive loop of main.py lines
151-247: validation failures are answered with the error reply and leave the
state untouched; an accepted frame runs the turn. -/
def session_step (env : TurnEnv) (cid : String) (s : SessionState) (f : InFrame) :
    SessionState × List OutFrame :=
  match validate_frame f with
  | .rejected err => (s, [OutFrame.text err])
  | .accepted content atts =>
    let td := turn_body env cid content atts s
    run_turn ⟨td.state, td.frames, none⟩

/-- Written from the spec, for statements about the assistant-response loop:
the assistant rows the loop is expected to persist for the produced texts,
starting at insertion index i. -/
def specAsstMsgs (env : TurnEnv) (cid : String) : Nat → List String → List Message
  | _, [] => []
  | i, r :: rs =>
    Message.mk (some (env.uuid_gen i)) cid "assistant" r (env.now_gen i)
      :: specAsstMsgs env cid (i + 1) rs

/-- Written from the spec: the acknowledgement frames the loop is expected
to send, one bare message dict per produced assistant text, in order. -/
def specAckFrames (env : TurnEnv) (cid : String) : Nat → List String → List OutFrame
  | _, [] => []
  | i, r :: rs =>
    OutFrame.json (msg_dict (Message.mk (some (env.uuid_gen i)) cid "assistant" r (env.now_gen i)))
      :: specAckFrames env cid (i + 1) rs

/-- Written from the spec: the expected side-effect trace of the
assistant-response loop, one persist, cache-store, send triple per text. -/
def specAsstOps (ru : Bool) : List String → List TurnOp
  | [] => []
  | r :: rs =>
    TurnOp.persist "assistant" r :: TurnOp.cache_store r ru :: TurnOp.send
      :: specAsstOps ru rs

/-- The cache state after storing each produced text in turn. -/
def cache_after (ru : Bool) (c : Option CacheEntry) : List String → Option CacheEntry
  | [] => c
  | r :: rs => cache_after ru (store_last_message ru c r none).1 rs

/-- The last_message_text variable after iterating over the produced texts. -/
def last_text_after (init : Option String) : List String → Option String
  | [] => init
  | r :: rs => last_text_after (some r) rs

/-- Written from the spec: checks along a trace that every assistant persist
is immediately followed by a cache-store call with the same content. -/
def cache_follows : List TurnOp → Bool
  | [] => true
  | TurnOp.persist role c :: rest =>
    (if role = "assistant" then
      match rest with
      | TurnOp.cache_store c2 _ :: _ => c2 == c
      | _ => false
    else true) && cache_follows rest
  | _ :: rest => cache_follows rest

/-- The texts the orchestration loop yields within a turn, as a function of
the turn inputs (used to state the turn-level theorems compactly). -/
def turn_yields (env : TurnEnv) (content : String) (atts : List Nat)
    (s : SessionState) : List String :=
  (process_query env.query content s.last_message_text
    (resolve_attachments s.docs atts env.api_base env.token (env.uuid_gen 0)).1
    env.response).yields

/-- A concrete turn environment for witnesses: no reachable tools, no
provider output, Redis down, API base unset. -/
def env0 : TurnEnv :=
  ⟨⟨fun _ _ => Except.error "unreachable", fun _ => []⟩, [], none, false, none,
    "tok", fun k => "uuid-" ++ toString k, fun k => k⟩

/-- A concrete turn environment for witnesses: one produced assistant text
and a reachable cache. -/
def env1 : TurnEnv :=
  ⟨⟨fun _ _ => Except.error "unreachable", fun _ => []⟩, [Segment.text "okay"],
    none, true, none, "tok", fun k => "uuid-" ++ toString k, fun k => k⟩

/-- A concrete query environment whose single tool succeeds and whose
follow-up response leads with an empty text segment. -/
def envC3 : QueryEnv :=
  ⟨fun _ _ => Except.ok "res", fun _ => [Segment.text ""]⟩

/-- A concrete query environment whose single tool succeeds and whose
follow-up response leads with a non-empty text segment. -/
def envC3ok : QueryEnv :=
  ⟨fun _ _ => Except.ok "res", fun _ => [Segment.text "F"]⟩

/-- A concrete query environment whose every tool invocation raises. -/
def envC5 : QueryEnv :=
  ⟨fun _ _ => Except.error "boom", fun _ => []⟩

/-- A concrete empty session state for witnesses. -/
def state0 : SessionState := ⟨[], [], none, none, none, true⟩

/-- A concrete document row for witnesses. -/
def doc1 : Documents := ⟨1, none, "report", "docs/report.png", "image/png", 10, "t0"⟩

/-- C1, counterexample: with the cache holding the (legitimately storable)
value of an empty string for the conversation, the resolver does not return
the cached value and performs a store read, contradicting the claim that a
cache hit is returned with no store read. -/
theorem context_resolution_counterexample :
  resolveContext true (some ⟨"", 2592000⟩) [⟨some "u1", "c", "assistant", "m", 5⟩] "c"
    = ⟨some "m", some ⟨"m", 2592000⟩, 1⟩
  ∧ (resolveContext true (some ⟨"", 2592000⟩) [⟨some "u1", "c", "assistant", "m", 5⟩] "c").store_reads ≠ 0 := by
  exact ⟨rfl, by decide⟩

/-- C1 (amended): context resolution is cache-first under Python truthiness:
a non-empty cached value is returned with no store read; when the cache
misses or holds the empty string, the newest assistant message is read from
the store (one read), written back with the default TTL when the cache
service is up, and returned; when no such message exists the resolver yields
no prior context. -/
theorem context_resolution_cache_first :
  (∀ (cache : Option CacheEntry) (store : List Message) (cid : String) (e : CacheEntry),
     cache = some e → e.content ≠ "" →
     resolveContext true cache store cid = ⟨some e.content, cache, 0⟩)
  ∧ (∀ (redis_up : Bool) (cache : Option CacheEntry) (store : List Message) (cid : String),
      (get_last_message redis_up cache = none ∨ get_last_message redis_up cache = some "") →
      (∀ m, newestAssistant store cid = some m →
        resolveContext redis_up cache store cid =
          ⟨some m.content, if redis_up then some ⟨m.content, default_ttl⟩ else cache, 1⟩)
      ∧ (newestAssistant store cid = none →
        resolveContext redis_up cache store cid = ⟨none, cache, 1⟩)) := by
  constructor
  · intro cache store cid e he hne
    subst he
    simp [resolveContext, get_last_message, hne]
  · intro ru cache store cid hget
    constructor
    · intro m hm
      rcases hget with h | h <;>
        simp [resolveContext, h, resolveFromStore, hm, store_last_message] <;>
        cases ru <;> simp
    · intro hm
      rcases hget with h | h <;>
        simp [resolveContext, h, resolveFromStore, hm]

/-- C1, witness for the amended theorem: a concrete cache hit returned with
zero store reads, and a concrete miss resolved from the store and refilled
with the default TTL. -/
theorem context_resolution_witness :
  resolveContext true (some ⟨"v", 7⟩) [] "c" = ⟨some "v", some ⟨"v", 7⟩, 0⟩
  ∧ resolveContext true none [⟨some "u1", "c", "assistant", "m", 5⟩] "c"
      = ⟨some "m", some ⟨"m", default_ttl⟩, 1⟩ := by
  constructor
  · exact context_resolution_cache_first.1 (some ⟨"v", 7⟩) [] "c" ⟨"v", 7⟩ rfl (by decide)
  · have h := (context_resolution_cache_first.2 true none
      [⟨some "u1", "c", "assistant", "m", 5⟩] "c" (Or.inl rfl)).1
      ⟨some "u1", "c", "assistant", "m", 5⟩ (by decide)
    simpa using h

/-- C2, counterexample: with an untitled conversation, two consecutive turns
whose title calls fail (process_conversation_title_query returns none, so the
sentinel New Conversation is stored) issue two title-generation provider
calls for the same conversation, contradicting at most once per
conversation. -/
theorem title_generation_counterexample :
  (titleRun (some ⟨none, none⟩) [(some "a", none), (some "b", none)]).2 = 2 := by
  decide

/-- C2 (amended): the title call is issued after a turn exactly when the
conversation row exists, the running last-message text is non-empty (it may
stem from the session-start context rather than from texts produced by that
turn), and the stored title is null, empty, or the sentinel New
Conversation; and once a non-sentinel title is stored, no sequence of later
turns issues another title call. -/
theorem title_generation_trigger :
  (∀ (conv : Option Conversation) (lt tr : Option String),
     (titleStep conv lt tr).title_call = true ↔
       ∃ c s, conv = some c ∧ lt = some s ∧ s ≠ "" ∧ isSentinelTitle c.title = true)
  ∧ (∀ (c : Conversation) (turns : List (Option String × Option String)),
      isSentinelTitle c.title = false → (titleRun (some c) turns).2 = 0) := by
  constructor
  · intro conv lt tr
    rcases lt with _ | s
    · simp [titleStep]
    rcases conv with _ | c
    · simp [titleStep]
    by_cases h : s ≠ "" ∧ isSentinelTitle c.title = true
    · constructor
      · intro _
        exact ⟨c, s, rfl, rfl, h.1, h.2⟩
      · intro _
        simp [titleStep, if_pos h]
    · constructor
      · intro hcall
        exfalso
        simp [titleStep, if_neg h] at hcall
      · rintro ⟨c', s', hc, hl, hs, hsent⟩
        exfalso
        rw [Option.some.injEq] at hc hl
        exact h ⟨hl ▸ hs, hc ▸ hsent⟩
  · intro c turns
    have key : ∀ (ts : List (Option String × Option String)) (k : Nat),
        isSentinelTitle c.title = false →
        (ts.foldl
          (fun st t =>
            let o := titleStep st.1 t.1 t.2
            (o.conversation, st.2 + (if o.title_call then 1 else 0)))
          (some c, k)).2 = k := by
      intro ts
      induction ts with
      | nil => intro k h; rfl
      | cons t rest ih =>
        intro k h
        have hstep : titleStep (some c) t.1 t.2 = ⟨some c, false, []⟩ := by
          unfold titleStep
          rcases ht : t.1 with _ | s
          · rfl
          · have hn : ¬ (s ≠ "" ∧ isSentinelTitle c.title = true) := by
              rintro ⟨_, hs⟩
              rw [h] at hs
              cases hs
            simp [hn]
        simp only [List.foldl_cons, hstep]
        simpa using ih k h
    intro h
    exact key turns 0 h

/-- C2, witness for the amended theorem: a conversation holding a real title
issues no title call over later turns, and an untitled conversation with a
produced text does trigger one. -/
theorem title_generation_witness :
  isSentinelTitle (some "Meal plan") = false
  ∧ (titleRun (some ⟨some "Meal plan", none⟩) [(some "x", some "y"), (some "z", none)]).2 = 0
  ∧ (titleStep (some ⟨none, none⟩) (some "a") (some "T")).title_call = true := by
  refine ⟨by decide, title_generation_trigger.2 ⟨some "Meal plan", none⟩ _ (by decide), ?_⟩
  exact (title_generation_trigger.1 (some ⟨none, none⟩) (some "a") (some "T")).2
    ⟨⟨none, none⟩, "a", rfl, rfl, by decide, by decide⟩

/-- A raising tool invocation leaves the loop state untouched. -/
lemma queryStep_tool_error (env : QueryEnv) (st : QueryState) (n a : String)
    (acc : Option String) (e : String) (h : env.tool_exec n a = Except.error e) :
    queryStep env st (Segment.tool_use n a acc) = st := by
  simp [queryStep, h]

/-- The provider-call trace of the loop, independent of the final
pending-text yield. -/
lemma process_query_calls (env : QueryEnv) (u : String) (lm : Option String)
    (urls : List (Option String)) (segs : List Segment) :
    (process_query env u lm urls segs).calls
      = ((segs.foldl (queryStep env)
          ⟨initialMessages u lm urls, none, [], [ProviderCall.mk true], [], 0⟩).calls) := by
  cases hst : (segs.foldl (queryStep env)
      ⟨initialMessages u lm urls, none, [], [ProviderCall.mk true], [], 0⟩).pending with
  | none => simp [process_query, hst]
  | some m =>
    by_cases hm : m = "" <;> simp [process_query, hst, hm]

/-- When every tool-use segment executes successfully, the loop appends one
catalog-free provider call per tool-use segment to the trace. -/
lemma queryStep_calls_foldl (env : QueryEnv) :
    ∀ (segs : List Segment) (st : QueryState),
    (∀ n a acc, Segment.tool_use n a acc ∈ segs → ∃ r, env.tool_exec n a = Except.ok r) →
    (segs.foldl (queryStep env) st).calls
      = st.calls ++ List.replicate (segs.countP Segment.isToolUse) (ProviderCall.mk false) := by
  intro segs
  induction segs with
  | nil => intro st h; simp
  | cons sg rest ih =>
    intro st h
    cases sg with
    | text s =>
      rw [List.foldl_cons, ih _ (fun n a acc hm => h n a acc (List.mem_cons_of_mem _ hm))]
      simp [queryStep, Segment.isToolUse, List.countP_cons]
    | tool_use n a acc =>
      obtain ⟨r, hr⟩ := h n a acc (List.mem_cons_self _ _)
      rw [List.foldl_cons, ih _ (fun n' a' acc' hm => h n' a' acc' (List.mem_cons_of_mem _ hm))]
      simp [queryStep, hr, Segment.isToolUse, List.countP_cons, List.replicate_succ,
        List.append_assoc]

/-- C3, counterexample: for a provider response of one tool-use segment then
one text segment, with a follow-up response whose leading segment is the
empty text, the tool runs and exactly one catalog-free follow-up call is
made, but the final yielded segment is the original text, not the follow-up
leading text: the pending empty string fails the Python truthiness test of
the final yield, contradicting the claim that the follow-up leading text is
the last yielded segment. -/
theorem orchestration_counterexample :
  (process_query envC3 "q" none [] [Segment.tool_use "t" "a" none, Segment.text "hello"]).yields
      = ["hello"]
  ∧ (process_query envC3 "q" none [] [Segment.tool_use "t" "a" none, Segment.text "hello"]).calls
      = [ProviderCall.mk true, ProviderCall.mk false]
  ∧ envC3.follow_up 0 = [Segment.text ""]
  ∧ ("hello" : String) ≠ "" := by
  exact ⟨rfl, rfl, rfl, by decide⟩

/-- C3 (amended): every tool-use segment whose execution succeeds causes
exactly one follow-up provider call made without the tool catalog (the call
trace is the initial catalog-bearing call followed by one catalog-free call
per tool-use segment); and for a response of one tool-use segment then one
text segment whose follow-up response leads with a non-empty text, the tool
is executed once and the follow-up leading text is the last yielded
segment. -/
theorem orchestration_follow_up :
  (∀ (env : QueryEnv) (u : String) (lm : Option String) (urls : List (Option String))
      (segs : List Segment),
    (∀ n a acc, Segment.tool_use n a acc ∈ segs → ∃ r, env.tool_exec n a = Except.ok r) →
    (process_query env u lm urls segs).calls
      = ProviderCall.mk true :: List.replicate (segs.countP Segment.isToolUse) (ProviderCall.mk false))
  ∧ (∀ (env : QueryEnv) (u : String) (lm : Option String) (urls : List (Option String))
      (n a : String) (acc : Option String) (s r f : String) (rest : List Segment),
    env.tool_exec n a = Except.ok r →
    env.follow_up 0 = Segment.text f :: rest →
    f ≠ "" →
    (process_query env u lm urls [Segment.tool_use n a acc, Segment.text s]).yields = [s, f]
    ∧ (process_query env u lm urls [Segment.tool_use n a acc, Segment.text s]).tool_runs = [(n, a)]
    ∧ (process_query env u lm urls [Segment.tool_use n a acc, Segment.text s]).calls
        = [ProviderCall.mk true, ProviderCall.mk false]) := by
  constructor
  · intro env u lm urls segs h
    rw [process_query_calls, queryStep_calls_foldl env segs _ h]
    simp
  · intro env u lm urls n a acc s r f rest h1 h2 h3
    refine ⟨?_, ?_, ?_⟩ <;>
      simp [process_query, queryStep, h1, h2, h3]

/-- C3, witness for the amended theorem at concrete inputs. -/
theorem orchestration_follow_up_witness :
  (process_query envC3ok "q" none [] [Segment.tool_use "t" "a" none, Segment.text "hi"]).yields
      = ["hi", "F"]
  ∧ (process_query envC3ok "q" none [] [Segment.text "z"]).calls = [ProviderCall.mk true] := by
  constructor
  · exact (orchestration_follow_up.2 envC3ok "q" none [] "t" "a" none "hi" "res" "F" []
      rfl rfl (by decide)).1
  · have h := orchestration_follow_up.1 envC3ok "q" none [] [Segment.text "z"]
      (by intro n a acc hm; simp at hm)
    simpa [Segment.isToolUse] using h

/-- C5: a tool invocation that raises is logged and skipped: the whole loop
result (messages, pending text, yields, provider-call trace, executed tools)
over a response containing the failing tool-use segment equals the result
over the response with that segment removed, so the segment contributes no
yielded text (hence no persisted message downstream) and the loop continues
with the remaining segments. -/
theorem tool_failure_skipped (env : QueryEnv) (u : String) (lm : Option String)
    (urls : List (Option String)) (pre post : List Segment) (n a : String)
    (acc : Option String) (e : String) (h : env.tool_exec n a = Except.error e) :
    process_query env u lm urls (pre ++ Segment.tool_use n a acc :: post)
      = process_query env u lm urls (pre ++ post) := by
  have hstep : ∀ st, queryStep env st (Segment.tool_use n a acc) = st :=
    fun st => queryStep_tool_error env st n a acc e h
  simp [process_query, List.foldl_append, List.foldl_cons, hstep]

/-- C5, witness: a concrete raising tool between two text segments makes the
loop behave as if the segment were not there. -/
theorem tool_failure_skipped_witness :
  envC5.tool_exec "t" "a" = Except.error "boom"
  ∧ process_query envC5 "q" none []
      [Segment.text "x", Segment.tool_use "t" "a" none, Segment.text "y"]
    = process_query envC5 "q" none [] [Segment.text "x", Segment.text "y"] := by
  refine ⟨rfl, ?_⟩
  exact tool_failure_skipped envC5 "q" none [] [Segment.text "x"] [Segment.text "y"]
    "t" "a" none "boom" rfl

/-- The success flag of a cache store is exactly the cache availability. -/
lemma store_last_message_ok (ru : Bool) (c : Option CacheEntry) (r : String) :
    (store_last_message ru c r none).2 = ru := by
  cases ru <;> simp [store_last_message]

/-- Unrolling the assistant-response loop over the produced texts. -/
lemma assistant_foldl (env : TurnEnv) (cid : String) :
    ∀ (ys : List String) (a : AsstState),
    (ys.map some).foldl (assistant_step env cid) a =
      ⟨a.store ++ specAsstMsgs env cid a.idx ys,
       cache_after env.redis_up a.cache ys,
       a.frames ++ specAckFrames env cid a.idx ys,
       a.ops ++ specAsstOps env.redis_up ys,
       last_text_after a.last_message_text ys,
       a.idx + ys.length⟩ := by
  intro ys
  induction ys with
  | nil =>
    intro a
    simp [specAsstMsgs, cache_after, specAckFrames, specAsstOps, last_text_after]
  | cons r rs ih =>
    intro a
    rw [List.map_cons, List.foldl_cons, ih]
    simp [assistant_step, specAsstMsgs, cache_after, specAckFrames, specAsstOps,
      last_text_after, store_last_message_ok, List.append_assoc]
    omega

/-- Full unrolling of a non-raising turn body into its components. -/
lemma turn_body_spec (env : TurnEnv) (cid content : String) (atts : List Nat)
    (s : SessionState) :
    turn_body env cid content atts s =
      ⟨⟨s.store ++ Message.mk (some (env.uuid_gen 0)) cid "user" content (env.now_gen 0)
          :: specAsstMsgs env cid 1 (turn_yields env content atts s),
        (resolve_attachments s.docs atts env.api_base env.token (env.uuid_gen 0)).2,
        cache_after env.redis_up s.cache (turn_yields env content atts s),
        (titleStep s.conversation
          (last_text_after s.last_message_text (turn_yields env content atts s))
          env.title_result).conversation,
        last_text_after s.last_message_text (turn_yields env content atts s),
        true⟩,
       OutFrame.json (msg_dict (Message.mk (some (env.uuid_gen 0)) cid "user" content (env.now_gen 0)))
         :: (specAckFrames env cid 1 (turn_yields env content atts s)
             ++ (titleStep s.conversation
                  (last_text_after s.last_message_text (turn_yields env content atts s))
                  env.title_result).frames),
       TurnOp.persist "user" content :: TurnOp.send
         :: (specAsstOps env.redis_up (turn_yields env content atts s)
             ++ ((titleStep s.conversation
                  (last_text_after s.last_message_text (turn_yields env content atts s))
                  env.title_result).frames.map (fun _ => TurnOp.send))),
       (resolve_attachments s.docs atts env.api_base env.token (env.uuid_gen 0)).1,
       (titleStep s.conversation
         (last_text_after s.last_message_text (turn_yields env content atts s))
         env.title_result).title_call⟩ := by
  simp only [turn_body, turn_yields]
  rw [assistant_foldl]
  simp [List.append_assoc]

/-- With the cache service down every store attempt leaves the cache as it
was. -/
lemma cache_after_false (ys : List String) :
    ∀ (c : Option CacheEntry), cache_after false c ys = c := by
  induction ys with
  | nil => intro c; rfl
  | cons r rs ih => intro c; simp [cache_after, store_last_message, ih]

/-- With the cache service up, after the loop the cache holds the last
produced text with the default TTL. -/
lemma cache_after_last (ys : List String) :
    ∀ (c : Option CacheEntry) (l : String), ys.getLast? = some l →
      cache_after true c ys = some ⟨l, default_ttl⟩ := by
  induction ys with
  | nil => intro c l h; cases h
  | cons r rs ih =>
    intro c l h
    cases rs with
    | nil =>
      simp at h
      subst h
      simp [cache_after, store_last_message]
    | cons r2 rs2 =>
      rw [List.getLast?_cons_cons] at h
      simp only [cache_after]
      exact ih _ l h

/-- The expected assistant rows carry exactly the produced texts. -/
lemma specAsstMsgs_contents (env : TurnEnv) (cid : String) :
    ∀ (ys : List String) (i : Nat),
      (specAsstMsgs env cid i ys).map Message.content = ys := by
  intro ys
  induction ys with
  | nil => intro i; rfl
  | cons r rs ih => intro i; simp [specAsstMsgs, ih]

/-- A trace of send markers alone satisfies the persist-then-cache check. -/
lemma cache_follows_sends (l : List OutFrame) :
    cache_follows (l.map (fun _ => TurnOp.send)) = true := by
  induction l with
  | nil => rfl
  | cons f rest ih => simpa [cache_follows] using ih

/-- Replicated send markers satisfy the persist-then-cache check. -/
lemma cache_follows_replicate_send (n : Nat) :
    cache_follows (List.replicate n TurnOp.send) = true := by
  induction n with
  | zero => rfl
  | succ k ih => simpa [List.replicate_succ, cache_follows] using ih

/-- The expected assistant trace satisfies the persist-then-cache check in
front of any tail that does. -/
lemma cache_follows_spec_ops (ru : Bool) :
    ∀ (ys : List String) (tail : List TurnOp),
      cache_follows (specAsstOps ru ys ++ tail) = cache_follows tail := by
  intro ys
  induction ys with
  | nil => intro tail; rfl
  | cons r rs ih => intro tail; simp [specAsstOps, cache_follows, ih]

/-- C6: within a turn, every assistant persist in the side-effect trace is
immediately followed by a cache-store call with the same content; the rows
persisted by the turn are the user message followed by one assistant row per
produced text whatever the cache availability (a failed cache store is
logged, never propagated, and does not abort the loop); when the cache
service is up the cache ends the turn holding the most recently persisted
assistant content with the default TTL, and when it is down the cache is
simply left as it was. -/
theorem persisted_then_cached (env : TurnEnv) (cid content : String) (atts : List Nat)
    (s : SessionState) :
    cache_follows (turn_body env cid content atts s).ops = true
    ∧ (turn_body env cid content atts s).state.store
        = s.store ++ Message.mk (some (env.uuid_gen 0)) cid "user" content (env.now_gen 0)
            :: specAsstMsgs env cid 1 (turn_yields env content atts s)
    ∧ (specAsstMsgs env cid 1 (turn_yields env content atts s)).map Message.content
        = turn_yields env content atts s
    ∧ (∀ l, env.redis_up = true → (turn_yields env content atts s).getLast? = some l →
        (turn_body env cid content atts s).state.cache = some ⟨l, default_ttl⟩)
    ∧ (env.redis_up = false → (turn_body env cid content atts s).state.cache = s.cache) := by
  refine ⟨?_, ?_, specAsstMsgs_contents env cid _ 1, ?_, ?_⟩
  · rw [turn_body_spec]
    simp [cache_follows, cache_follows_spec_ops, cache_follows_sends,
      cache_follows_replicate_send]
  · rw [turn_body_spec]
  · intro l hru hlast
    rw [turn_body_spec]
    simp only []
    rw [hru]
    exact cache_after_last _ _ _ hlast
  · intro hru
    rw [turn_body_spec]
    simp only []
    rw [hru, cache_after_false]

/-- C6, witness: a concrete turn with one produced text and the cache up
ends with the cache holding that text at the default TTL, and its trace
passes the persist-then-cache check. -/
theorem persisted_then_cached_witness :
    env1.redis_up = true
    ∧ (turn_yields env1 "hello" [] state0).getLast? = some "okay"
    ∧ (turn_body env1 "c" "hello" [] state0).state.cache = some ⟨"okay", default_ttl⟩
    ∧ cache_follows (turn_body env1 "c" "hello" [] state0).ops = true := by
  refine ⟨rfl, rfl, ?_, (persisted_then_cached env1 "c" "hello" [] state0).1⟩
  exact (persisted_then_cached env1 "c" "hello" [] state0).2.2.2.1 "okay" rfl rfl

/-- C7: whatever a turn body did before finishing or raising, the session
stays active for the next frame, the frame sequence of the turn ends with
the typing-stopped frame (on success and on failure alike), and when the
body raised, the frames are exactly the typing-started frame, the frames the
body sent, the error frame with the message of the exception, and the
typing-stopped frame. -/
theorem turn_boundary_catch (b : BodyResult) :
    ((run_turn b).1.active = true)
    ∧ ((run_turn b).2.getLast? = some (typing_frame false))
    ∧ (∀ e, b.error = some e →
        (run_turn b).2 = typing_frame true :: (b.frames ++ [error_frame e, typing_frame false])) := by
  refine ⟨?_, ?_, ?_⟩
  · cases h : b.error <;> simp [run_turn, h]
  · cases h : b.error with
    | none =>
      simp only [run_turn, h]
      rw [show typing_frame true :: (b.frames ++ [typing_frame false])
            = (typing_frame true :: b.frames) ++ [typing_frame false] by simp]
      exact List.getLast?_concat _
    | some e =>
      simp only [run_turn, h]
      rw [show typing_frame true :: (b.frames ++ [error_frame e, typing_frame false])
            = (typing_frame true :: (b.frames ++ [error_frame e])) ++ [typing_frame false] by simp]
      exact List.getLast?_concat _
  · intro e he
    simp [run_turn, he]

/-- C7, witness: a concrete raising body yields the error frame followed by
the typing-stopped frame and leaves the session active. -/
theorem turn_boundary_catch_witness :
    (run_turn ⟨state0, [], some "boom"⟩).1.active = true
    ∧ (run_turn ⟨state0, [], some "boom"⟩).2
        = [typing_frame true, error_frame "boom", typing_frame false] := by
  refine ⟨(turn_boundary_catch ⟨state0, [], some "boom"⟩).1, ?_⟩
  have h := (turn_boundary_catch ⟨state0, [], some "boom"⟩).2.2 "boom" rfl
  simpa using h

/-- C4: a frame whose payload is not valid JSON is answered with the format
error, and a frame whose message field is missing, blank or at most 2
characters after trimming is answered with the length error; in both cases
the session state (message table, documents, cache, conversation, context
text, active flag) is returned untouched, so no Message is persisted,
conversation state does not advance, and the receive loop continues. -/
theorem malformed_frame_rejected (env : TurnEnv) (cid : String) (s : SessionState) :
    (session_step env cid s InFrame.invalid_json
        = (s, [OutFrame.text "Invalid message format"]))
    ∧ (∀ (m : Option String) (atts : List Nat), (py_strip (m.getD "")).length ≤ 2 →
        session_step env cid s (InFrame.valid m atts)
          = (s, [OutFrame.text "Message content is required"])) := by
  constructor
  · rfl
  · intro m atts h
    have hv : validate_frame (InFrame.valid m atts) = .rejected "Message content is required" := by
      simp [validate_frame, Or.inr h]
    simp [session_step, hv]

/-- C4, witness: the format error for a non-JSON payload, the length error
for a 2-character message and for an absent message field, and the session
left as it was, still active. -/
theorem malformed_frame_rejected_witness :
    session_step env0 "c" state0 InFrame.invalid_json
        = (state0, [OutFrame.text "Invalid message format"])
    ∧ session_step env0 "c" state0 (InFrame.valid (some "hi") [])
        = (state0, [OutFrame.text "Message content is required"])
    ∧ session_step env0 "c" state0 (InFrame.valid none [])
        = (state0, [OutFrame.text "Message content is required"])
    ∧ state0.active = true := by
  refine ⟨(malformed_frame_rejected env0 "c" state0).1, ?_, ?_, rfl⟩
  · exact (malformed_frame_rejected env0 "c" state0).2 (some "hi") [] (by decide)
  · exact (malformed_frame_rejected env0 "c" state0).2 none [] (by decide)

/-- C9, counterexample: for a concrete accepted message, the frame sent for
the persisted user message is the bare Message.dict object; it has no type
key and no message key at all, so it is not a frame of the claimed shape
with type message-ack wrapping a MessageView. -/
theorem message_ack_counterexample :
    (session_step env0 "c" state0 (InFrame.valid (some "hello world") [])).2
      = [typing_frame true,
         OutFrame.json (msg_dict ⟨some "uuid-0", "c", "user", "hello world", 0⟩),
         typing_frame false]
    ∧ jget (msg_dict ⟨some "uuid-0", "c", "user", "hello world", 0⟩) "type" = none
    ∧ jget (msg_dict ⟨some "uuid-0", "c", "user", "hello world", 0⟩) "message" = none := by
  refine ⟨rfl, rfl, rfl⟩

/-- C9 (amended): every persisted message is acknowledged with a frame that
is the bare message view itself, the object with keys uuid, role, content
and created_at and no wrapper: the frames of a turn body are exactly one
such frame for the persisted user message, then one per produced assistant
text in emission order, then the frames of the title block. -/
theorem message_ack_frames (env : TurnEnv) (cid content : String) (atts : List Nat)
    (s : SessionState) :
    (turn_body env cid content atts s).frames
      = OutFrame.json (msg_dict (Message.mk (some (env.uuid_gen 0)) cid "user" content (env.now_gen 0)))
        :: (specAckFrames env cid 1 (turn_yields env content atts s)
            ++ (titleStep s.conversation
                 (last_text_after s.last_message_text (turn_yields env content atts s))
                 env.title_result).frames) := by
  rw [turn_body_spec]

/-- The URL list accumulated by the attachment loop: one entry per resolved
document, in order, whatever get_document_download_url returns. -/
lemma resolve_fold_fst (api_base : Option String) (token msg_uuid : String) :
    ∀ (found : List Documents) (u0 : List (Option String)) (d0 : List Documents),
      (found.foldl
        (fun acc d =>
          (acc.1 ++ [get_document_download_url api_base d token],
           set_message_uuid acc.2 d.id msg_uuid)) (u0, d0)).1
        = u0 ++ found.map (fun d => get_document_download_url api_base d token) := by
  intro found
  induction found with
  | nil => intro u0 d0; simp
  | cons d rest ih =>
    intro u0 d0
    rw [List.foldl_cons, ih]
    simp

/-- The documents component of the attachment loop only depends on the
successive bindings. -/
lemma resolve_fold_snd (api_base : Option String) (token msg_uuid : String) :
    ∀ (found : List Documents) (u0 : List (Option String)) (d0 : List Documents),
      (found.foldl
        (fun acc d =>
          (acc.1 ++ [get_document_download_url api_base d token],
           set_message_uuid acc.2 d.id msg_uuid)) (u0, d0)).2
        = found.foldl (fun t d => set_message_uuid t d.id msg_uuid) d0 := by
  intro found
  induction found with
  | nil => intro u0 d0; rfl
  | cons d rest ih => intro u0 d0; rw [List.foldl_cons, List.foldl_cons, ih]

/-- With unique ids, the primary-key update is the pointwise update. -/
lemma set_message_uuid_map (i : Nat) (u : String) :
    ∀ (docs : List Documents), (docs.map Documents.id).Nodup →
      set_message_uuid docs i u
        = docs.map (fun d => if d.id = i then { d with message_uuid := some u } else d) := by
  intro docs
  induction docs with
  | nil => intro h; rfl
  | cons d rest ih =>
    intro h
    rw [List.map_cons, List.nodup_cons] at h
    by_cases hd : d.id = i
    · have hrest : ∀ d' ∈ rest,
          (if d'.id = i then { d' with message_uuid := some u } else d') = d' := by
        intro d' hd'
        rw [if_neg]
        intro heq
        exact h.1 (hd ▸ heq ▸ List.mem_map_of_mem Documents.id hd')
      simp [set_message_uuid, hd, List.map_congr_left hrest]
    · simp [set_message_uuid, hd, ih h.2]

/-- The pointwise update preserves every id. -/
lemma bind_map_ids (i : Nat) (u : String) (docs : List Documents) :
    (docs.map (fun d => if d.id = i then { d with message_uuid := some u } else d)).map
        Documents.id
      = docs.map Documents.id := by
  rw [List.map_map]
  apply List.map_congr_left
  intro d _
  by_cases hd : d.id = i <;> simp [hd]

/-- With unique ids, folding the per-document binding over the resolved
documents updates exactly the rows some resolved document points at. -/
lemma bind_fold_map (u : String) :
    ∀ (found : List Documents) (docs : List Documents), (docs.map Documents.id).Nodup →
      found.foldl (fun t d => set_message_uuid t d.id u) docs
        = docs.map (fun d0 =>
            if found.any (fun d => d.id == d0.id)
            then { d0 with message_uuid := some u } else d0) := by
  intro found
  induction found with
  | nil =>
    intro docs h
    simp
  | cons d rest ih =>
    intro docs h
    rw [List.foldl_cons, set_message_uuid_map d.id u docs h,
      ih _ (by rw [bind_map_ids]; exact h), List.map_map]
    apply List.map_congr_left
    intro d0 _
    by_cases h1 : d0.id = d.id
    · by_cases h2 : rest.any (fun d' => d'.id == d0.id) = true <;>
        simp [Function.comp, h1, h2, List.any_cons]
    · by_cases h2 : rest.any (fun d' => d'.id == d0.id) = true <;>
        simp [Function.comp, h1, h2, List.any_cons, Ne.symm h1]

/-- C8: attachment resolution over a table with unique ids and a configured
API base: ids resolving to no document are silently dropped, the returned
URL list has exactly one parameterised download URL per resolved id in input
order, and exactly the rows some resolved id points at are persisted with
their message_uuid bound to the just-created user message. -/
theorem attachment_resolution (docs : List Documents) (atts : List Nat)
    (b token u : String) (hnd : (docs.map Documents.id).Nodup) (hb : b ≠ "") :
    (resolve_attachments docs atts (some b) token u).1
      = ((atts.map (fun i => get_document_by_id docs i)).filterMap id).map
          (fun d => some (b ++ "/api/documents/" ++ toString d.id ++ "/download?access_token=" ++ token))
    ∧ (resolve_attachments docs atts (some b) token u).2
      = docs.map (fun d0 =>
          if ((atts.map (fun i => get_document_by_id docs i)).filterMap id).any
              (fun d => d.id == d0.id)
          then { d0 with message_uuid := some u } else d0) := by
  constructor
  · simp only [resolve_attachments]
    rw [resolve_fold_fst]
    simp [get_document_download_url, hb]
  · simp only [resolve_attachments]
    rw [resolve_fold_snd, bind_fold_map u _ docs hnd]

/-- C8, witness: the claimed particular case: ids 1 and 999 against a table
holding only document 1 produce exactly one URL and bind only document 1. -/
theorem attachment_resolution_witness :
    (resolve_attachments [doc1] [1, 999] (some "http://api") "tok" "u0").1
        = [some "http://api/api/documents/1/download?access_token=tok"]
    ∧ (resolve_attachments [doc1] [1, 999] (some "http://api") "tok" "u0").2
        = [{ doc1 with message_uuid := some "u0" }] := by
  have h := attachment_resolution [doc1] [1, 999] "http://api" "tok" "u0" (by decide) (by decide)
  exact ⟨by rw [h.1]; rfl, by rw [h.2]; rfl⟩

/-- C10: with the API base url unset, download-URL construction returns
none, yet the attachment loop still appends that none per resolved document
(so the URL list handed to the orchestration loop can contain null entries)
and still binds each resolved document to the user message; the final
conjunct states it at the turn level for the list actually handed onward. -/
theorem null_url_propagation :
    (∀ (d : Documents) (token : String), get_document_download_url none d token = none)
    ∧ (∀ (docs : List Documents) (atts : List Nat) (token u : String),
        (resolve_attachments docs atts none token u).1
          = ((atts.map (fun i => get_document_by_id docs i)).filterMap id).map
              (fun _ => (none : Option String)))
    ∧ (∀ (docs : List Documents) (atts : List Nat) (token u : String),
        (docs.map Documents.id).Nodup →
        (resolve_attachments docs atts none token u).2
          = docs.map (fun d0 =>
              if ((atts.map (fun i => get_document_by_id docs i)).filterMap id).any
                  (fun d => d.id == d0.id)
              then { d0 with message_uuid := some u } else d0))
    ∧ (∀ (env : TurnEnv) (cid content : String) (atts : List Nat) (s : SessionState),
        env.api_base = none →
        (turn_body env cid content atts s).urls
          = ((atts.map (fun i => get_document_by_id s.docs i)).filterMap id).map
              (fun _ => (none : Option String))) := by
  refine ⟨fun d token => rfl, ?_, ?_, ?_⟩
  · intro docs atts token u
    simp only [resolve_attachments]
    rw [resolve_fold_fst]
    simp [get_document_download_url]
  · intro docs atts token u hnd
    simp only [resolve_attachments]
    rw [resolve_fold_snd, bind_fold_map u _ docs hnd]
  · intro env cid content atts s h
    rw [turn_body_spec]
    show (resolve_attachments s.docs atts env.api_base env.token (env.uuid_gen 0)).1 = _
    rw [h]
    simp only [resolve_attachments]
    rw [resolve_fold_fst]
    simp [get_document_download_url]

/-- C10, witness: a single resolved attachment with the API base unset
yields the URL list consisting of one null entry, both at the resolver and
at the turn level, while the document still gets bound. -/
theorem null_url_propagation_witness :
    (resolve_attachments [doc1] [1] none "tok" "u0").1 = [none]
    ∧ (resolve_attachments [doc1] [1] none "tok" "u0").2
        = [{ doc1 with message_uuid := some "u0" }]
    ∧ (turn_body env0 "c" "hey hey" [1] ⟨[], [doc1], none, none, none, true⟩).urls = [none] := by
  refine ⟨?_, ?_, ?_⟩
  · rw [null_url_propagation.2.1 [doc1] [1] "tok" "u0"]
    rfl
  · rw [null_url_propagation.2.2.1 [doc1] [1] "tok" "u0" (by decide)]
    rfl
  · rw [null_url_propagation.2.2.2 env0 "c" "hey hey" [1]
      ⟨[], [doc1], none, none, none, true⟩ rfl]
    rfl

end McpHealthy
